import Mathlib

/-!
Verification of the gmash `gendocs` help-text parser and Markdown renderer.

This file is a shallow embedding, in Lean 4, of the Python modules
`helptext_ast.py`, `helptext_parser.py` and `helptext_md.py` of the gmash
repository, together with theorems settling a list of claims about them.

Modelling conventions:
* A Python line (`str`) is a `List Char`; the list of logical lines is a
  `List (List Char)`.  Node payloads and error messages are Lean `String`s.
* Python's character classes (`str.isalpha`, `str.isalnum`, `str.isspace`)
  are modelled over their ASCII behaviour (`Char.isAlpha`, `Char.isAlphanum`);
  all inputs considered by the claims are ASCII.
* `str.splitlines` is modelled for text whose only line terminator is `"\n"`.
* A Python exception escaping a function (IndexError on out-of-range
  indexing, AttributeError on a missing enum member or on an attribute of a
  plain string) is modelled by an explicit `crash` outcome.
* `ParseResult.__init__` tests `isinstance(res, tuple)`, which is true for
  the failure 4-tuples as well as for the success 3-tuples, so a 4-tuple
  failure has `error = None` and behaves as a success whose payload is the
  failure message string; callers append that string into a `branches`
  list.  The embedding keeps a distinct `err` constructor to record which
  return site built the result, but models every `is_error()` check as
  true only for the bare-string results.
* A Python `while` loop whose progress is not structurally evident is
  modelled by a fuel-indexed recursive function; `none` means the fuel ran
  out, so a loop that never terminates in Python yields `none` at every fuel.
-/

namespace Gmash

/-- Token kinds, from `class Tk` in `helptext_ast.py`.  The member `SYNTAX` is
rendered here as `SYNTAX_NODE`; `POSION` keeps the source's spelling.  Note
that the source enum has no `COMMAND_SECTION` or `COMMAND` members even though
`parse_command_section` refers to them. -/
inductive Tk where
  | NOTHING
  | POSION
  | SYNTAX_NODE
  | USAGE
  | BRIEF
  | SECTION
  | TEXT_LINE
  | PARAGRAPH
  | SHELL_IDENT
  | SHORT_FLAG
  | SHORT_FLAG_IDENT
  | LONG_FLAG
  | LONG_FLAG_IDENT
  | OPTIONAL_ARG
  | REQUIRED_ARG
  | ARGUMENT
  | ARGUMENT_LIST
  deriving DecidableEq, Repr

/-- The Python enum member name of a `Tk` value (`tk.name`). -/
def Tk.name : Tk → String
  | .NOTHING => "NOTHING"
  | .POSION => "POSION"
  | .SYNTAX_NODE => "SYNTAX"
  | .USAGE => "USAGE"
  | .BRIEF => "BRIEF"
  | .SECTION => "SECTION"
  | .TEXT_LINE => "TEXT_LINE"
  | .PARAGRAPH => "PARAGRAPH"
  | .SHELL_IDENT => "SHELL_IDENT"
  | .SHORT_FLAG => "SHORT_FLAG"
  | .SHORT_FLAG_IDENT => "SHORT_FLAG_IDENT"
  | .LONG_FLAG => "LONG_FLAG"
  | .LONG_FLAG_IDENT => "LONG_FLAG_IDENT"
  | .OPTIONAL_ARG => "OPTIONAL_ARG"
  | .REQUIRED_ARG => "REQUIRED_ARG"
  | .ARGUMENT => "ARGUMENT"
  | .ARGUMENT_LIST => "ARGUMENT_LIST"

/-- A value stored in a tree position, from `class Ast` in
`helptext_ast.py`: a kind tag, an optional string payload, a source span
(`line`, `col`, `end_line`, `end_col`, all defaulting to 0 in the source),
and the ordered list of children (`branches`).

The extra `pystr` variant is a plain Python `str` sitting where a node is
expected: `ParseResult.__init__` tests `isinstance(res, tuple)`, and the
failure 4-tuples are tuples just like the success 3-tuples, so a 4-tuple
failure gets `error = None` and its `ast` field holds the failure *message
string*; callers that do `node.append(result.get_ast())` then append that
raw string into a `branches` list.  Reading an attribute (`tk`, `value`,
`branches`) of such a string raises `AttributeError` in Python; the
renderer models those reads as crashes. -/
inductive Ast where
  | mk (tk : Tk) (value : Option String) (line col end_line end_col : Nat)
      (branches : List Ast)
  | pystr (s : String)

/-- The `tk` field of an `Ast` node.  The `pystr` default exists only to
make the function total: Python raises `AttributeError` on `str.tk`, and
this development never evaluates `Ast.tk` on a `pystr` (the renderer, which
does meet `pystr` children, models the attribute read as a crash
explicitly). -/
def Ast.tk : Ast → Tk
  | .mk t _ _ _ _ _ _ => t
  | .pystr _ => .NOTHING

mutual

/-- Structural equality of trees ignoring spans: Python's `Ast.__eq__`
compares `tk`, `value` and `branches` and ignores the four span fields.
Two raw strings in a branches list compare by string equality
(`str.__eq__`); a raw string never equals a node (`Ast.__eq__` returns
`NotImplemented` for a non-`Ast` operand and the fallback identity test
fails for distinct objects). -/
def astEq : Ast → Ast → Bool
  | .mk t v _ _ _ _ bs, .mk u w _ _ _ _ cs =>
    decide (t = u) && decide (v = w) && astEqList bs cs
  | .pystr s, .pystr t => decide (s = t)
  | _, _ => false

/-- Pointwise `astEq` on branch lists (Python list equality of `Ast`s). -/
def astEqList : List Ast → List Ast → Bool
  | [], [] => true
  | a :: as, b :: bs => astEq a b && astEqList as bs
  | _, _ => false

end

mutual

theorem astEq_refl : ∀ a : Ast, astEq a a = true
  | .mk t v _ _ _ _ bs => by
    unfold astEq
    simp [astEqList_refl bs]
  | .pystr s => by
    unfold astEq
    simp

theorem astEqList_refl : ∀ l : List Ast, astEqList l l = true
  | [] => rfl
  | a :: as => by
    unfold astEqList
    simp [astEq_refl a, astEqList_refl as]

end

/-! ### Parsing utilities (`helptext_parser.py`, lines 27–142) -/

/-- A logical line: the characters of one Python `str` line. -/
abbrev Line := List Char

/-- The line array handed to the parsers. -/
abbrev Input := List Line

/-- Shorthand: the character list of a string literal. -/
def chars (s : String) : Line := s.toList

/-- `_is_alnumus`: alpha, numeric or underscore (`c.isalnum() or c == '_'`). -/
def is_alnumus (c : Char) : Bool := c.isAlphanum || c = '_'

/-- `_is_alnumdash`: alpha, numeric, underscore or dash. -/
def is_alnumdash (c : Char) : Bool := c.isAlphanum || c = '_' || c = '-'

/-- `_is_alpha`: alpha or underscore (`c.isalpha() or c == '_'`). -/
def is_alpha (c : Char) : Bool := c.isAlpha || c = '_'

/-- `_is_whitespace`: a space or a tab. -/
def is_whitespace (c : Char) : Bool := c = ' ' || c = '\t'

/-- The characters removed by Python's `str.strip()` (ASCII whitespace). -/
def is_py_space (c : Char) : Bool :=
  c = ' ' || c = '\t' || c = '\n' || c = '\r' || c = '\x0B' || c = '\x0C'

/-- Python `s.strip()`: remove leading and trailing whitespace. -/
def strip (s : Line) : Line :=
  ((s.dropWhile is_py_space).reverse.dropWhile is_py_space).reverse

/-- Python `s.startswith(p, pos)` for a non-empty prefix `p` (the parser never
passes an empty one): `p` occurs at position `pos` of `s`. -/
def startswith (s p : Line) (pos : Nat) : Bool := p.isPrefixOf (s.drop pos)

/-- `s[pos]` under a bounds guard already established by the caller; the
default is never reached on the guarded paths that use it. -/
def charAtD (s : Line) (pos : Nat) : Char := s.getD pos ' '

/-- `_is_usage_keyword`: the line starts with `Usage`, `usage` or `USAGE`. -/
def is_usage_keyword (s : Line) : Bool :=
  if startswith s (chars "Usage") 0 then true
  else if startswith s (chars "usage") 0 then true
  else if startswith s (chars "USAGE") 0 then true
  else false

/-- `_is_command_keyword`: length of the first matching command-keyword
variant, checked in source order, or 0.  Note `"Command"` is checked before
`"Commands"`, so the `"Commands"` arms are dead code. -/
def is_command_keyword (s : Line) : Nat :=
  if startswith s (chars "Command") 0 then "Command".length
  else if startswith s (chars "command") 0 then "command".length
  else if startswith s (chars "COMMAND") 0 then "COMMAND".length
  else if startswith s (chars "Commands") 0 then "Commands".length
  else if startswith s (chars "commands") 0 then "commands".length
  else if startswith s (chars "COMMANDS") 0 then "COMMANDS".length
  else if startswith s (chars "Subcommands") 0 then "Subcommands".length
  else if startswith s (chars "subcommands") 0 then "subcommands".length
  else if startswith s (chars "SUBCOMMANDS") 0 then "SUBCOMMANDS".length
  else if startswith s (chars "Subcommand") 0 then "Subcommand".length
  else if startswith s (chars "subcommand") 0 then "subcommand".length
  else if startswith s (chars "SUBCOMMAND") 0 then "SUBCOMMAND".length
  else if startswith s (chars "sub-command") 0 then "sub-command".length
  else if startswith s (chars "Sub-Command") 0 then "Sub-Command".length
  else if startswith s (chars "SUB-COMMAND") 0 then "SUB-COMMAND".length
  else if startswith s (chars "sub-commands") 0 then "sub-commands".length
  else if startswith s (chars "Sub-Commands") 0 then "Sub-Commands".length
  else if startswith s (chars "SUB-COMMANDS") 0 then "SUB-COMMANDS".length
  else 0

/-- `_is_indented_line`: the line is non-blank and starts with the requested
indent level, in units of 4 spaces, `level` tabs, or 2 spaces per level; at
level `0` it just requires no leading space or tab. -/
def is_indented_line (s : Line) (indent_level : Nat) : Bool :=
  if (strip s).isEmpty then false
  else if indent_level < 1 then
    if startswith s (chars " ") 0 || startswith s (chars "\t") 0 then false
    else true
  else
    let half_indent := List.replicate (2 * indent_level) ' '
    let space_indent := List.replicate (4 * indent_level) ' '
    let tab_indent := List.replicate indent_level '\t'
    startswith s space_indent 0 || startswith s tab_indent 0 ||
      startswith s half_indent 0

/-- `_skip_chars(s, pos, char, 1)`: the parser only ever calls `_skip_chars`
with `count = 1`, where it skips one occurrence of `char` at `pos` and
returns the number of characters skipped. -/
def skip_chars1 (s : Line) (pos : Nat) (c : Char) : Nat :=
  match s.get? pos with
  | some d => if d = c then 1 else 0
  | none => 0

/-- `_skip_whitespace`: number of consecutive spaces/tabs from `pos`. -/
def skip_whitespace (s : Line) (pos : Nat) : Nat :=
  ((s.drop pos).takeWhile is_whitespace).length

/-- `_line_startswith`: prefix check ignoring leading whitespace after `pos`. -/
def line_startswith (s p : Line) (pos : Nat) : Bool :=
  startswith s p (pos + skip_whitespace s pos)

/-- `_in_line`: the position is within the line bounds. -/
def in_line (pos : Nat) (s : Line) : Bool := pos < s.length

/-- `_in_range`: the line index is within the input bounds. -/
def in_range (line : Nat) (inp : Input) : Bool := line < inp.length

/-- Split on every `'\n'`, keeping empty pieces (Python `s.split("\n")`). -/
def split_on_nl : Line → List Line
  | [] => [[]]
  | c :: rest =>
    if c = '\n' then [] :: split_on_nl rest
    else
      match split_on_nl rest with
      | [] => [[c]]
      | l :: ls => (c :: l) :: ls

/-- Python `str.splitlines()` for text whose only line terminator is `"\n"`:
the empty string gives no lines, otherwise split on `'\n'` and drop the
final empty piece produced by a trailing `'\n'`. -/
def splitlines (s : Line) : Input :=
  if s.isEmpty then []
  else if s.getLast? = some '\n' then (split_on_nl s).dropLast
  else split_on_nl s

/-! ### Parse results (`class ParseResult`, `helptext_parser.py` 151–184) -/

/-- Outcome of a parse call (`class ParseResult`).  `ParseResult.__init__`
discriminates with `isinstance(res, tuple)`, and **both** the success
3-tuples and the failure 4-tuples are tuples, so every tuple-built result
ends up with `error = None`: `is_error()` is `False` for it and callers
treat it as a success whose `ast` is the failure message string.
* `ok` is `ParseResult((ast, end_line, end_col))`.
* `err` is `ParseResult((message, line, col, inp))` — a 4-tuple failure.
  It records which return site built the result, but behaviourally
  `is_error()` is `False`, `get_ast()` returns the message string (which a
  caller appends into a branches list as an `Ast.pystr`), and
  `get_line`/`get_col` return the failure position.
* `bare` is the degenerate `ParseResult("...")` built from a plain string;
  only this takes the non-tuple branch of `__init__`, so only this has
  `is_error()` true (with `error` holding the message's first character and
  the line/col fields its next characters).
* `crash` is a Python exception escaping the parser (IndexError on
  out-of-range indexing, AttributeError on a missing `Tk` member). -/
inductive ParseOut where
  | ok (a : Ast) (end_line end_col : Nat)
  | err (msg : String) (line col : Nat)
  | bare (msg : String)
  | crash

/-! ### Primitive token parsers (`helptext_parser.py` 186–309) -/

/-- `parse_long_flag`: `--` followed by an identifier that starts with a
letter/underscore, contains letters/digits/underscore/dash, ends with a
letter/digit/underscore and has length at least 2.  The function indexes
`inp[line]` before checking the line bound, hence the `crash` arm. -/
def parse_long_flag (inp : Input) (line col : Nat) : ParseOut :=
  match inp.get? line with
  | none => .crash
  | some s =>
    let beg_line := line
    let beg_col := col
    if ¬ in_line col s then
      .err "Expected long flag but reached end of input." line col
    else
      let col := col + skip_whitespace s col
      if ¬ startswith s (chars "--") col then
        .err "Expected long flag starting with a \x27--\x27." line col
      else
        let col := col + 2
        let flag_beg_line := line
        let flag_beg_col := col
        let flag_ident := (s.drop col).takeWhile is_alnumdash
        let col := col + flag_ident.length
        if flag_ident.length < 2 || ¬ is_alpha (flag_ident.headD ' ')
            || ¬ is_alnumus (flag_ident.getLastD ' ') then
          .err "Invalid long flag identifier." line col
        else if in_line col s
            && ¬ (is_whitespace (charAtD s col) || charAtD s col = ',') then
          .err "Expected whitespace or comma after long flag." line col
        else
          .ok (.mk .LONG_FLAG none beg_line beg_col line col
                [.mk .LONG_FLAG_IDENT (some (String.mk flag_ident))
                  flag_beg_line flag_beg_col line col []])
            line col

/-- `parse_short_flag`: `-` followed by exactly one letter/underscore, which
must be followed by whitespace, a comma or the end of the line.  Unlike the
other primitive parsers it does **not** skip leading whitespace. -/
def parse_short_flag (inp : Input) (line col : Nat) : ParseOut :=
  match inp.get? line with
  | none => .crash
  | some s =>
    let beg_line := line
    let beg_col := col
    if ¬ in_line col s then
      .err "Expected short flag but reached end of inp." line col
    else if ¬ startswith s (chars "-") col || startswith s (chars "--") col then
      .err "Expected short flag starting with a \x27-\x27." line col
    else
      let col := col + 1
      if ¬ in_line col s || ¬ is_alpha (charAtD s col) then
        .err "Invalid short flag identifier." line col
      else
        let flag_beg_line := line
        let flag_beg_col := col
        let flag_ident := charAtD s col
        let col := col + 1
        if in_line col s
            && ¬ (is_whitespace (charAtD s col) || charAtD s col = ',') then
          .err "Expected whitespace or comma after short flag." line col
        else
          .ok (.mk .SHORT_FLAG none beg_line beg_col line col
                [.mk .SHORT_FLAG_IDENT (some (String.mk [flag_ident]))
                  flag_beg_line flag_beg_col line col []])
            line col

/-- `parse_optional_arg`: `[ident]` where `ident` is any non-empty run of
characters other than `]` (the source validates only non-emptiness here). -/
def parse_optional_arg (inp : Input) (line col : Nat) : ParseOut :=
  if ¬ in_range line inp then
    .err "Expected optional argument but reached end of input." line col
  else
    let s := inp.getD line []
    let beg_line := line
    let beg_col := col
    let col := col + skip_whitespace s col
    if ¬ startswith s (chars "[") col then
      .err "Expected optional argument starting with a \x27[\x27." line col
    else
      let col := col + 1
      let ident_beg_line := line
      let ident_beg_col := col
      let arg_ident := (s.drop col).takeWhile (fun c => ¬ c = ']')
      let col := col + arg_ident.length
      if arg_ident.length < 1 then
        .err "Expected optional argument identifier." line col
      else
        let col := col + skip_whitespace s col
        if ¬ in_line col s || ¬ startswith s (chars "]") col then
          .err "Expected closing \x27]\x27 for optional argument." line col
        else
          let col := col + 1
          .ok (.mk .OPTIONAL_ARG none beg_line beg_col line col
                [.mk .SHELL_IDENT (some (String.mk arg_ident))
                  ident_beg_line ident_beg_col line col []])
            line col

/-- `parse_required_arg`: `<ident>` where `ident` is non-empty, starts with a
letter/underscore and ends with a letter/digit/underscore. -/
def parse_required_arg (inp : Input) (line col : Nat) : ParseOut :=
  if ¬ in_range line inp then
    .err "Expected required argument but reached end of input." line col
  else
    let s := inp.getD line []
    let beg_line := line
    let beg_col := col
    let col := col + skip_whitespace s col
    if ¬ startswith s (chars "<") col then
      .err "Expected required argument starting with a \x27<\x27." line col
    else
      let col := col + 1
      let ident_beg_line := line
      let ident_beg_col := col
      let arg_ident := (s.drop col).takeWhile (fun c => ¬ c = '>')
      let col := col + arg_ident.length
      if arg_ident.length < 1 || ¬ is_alpha (arg_ident.headD ' ')
          || ¬ is_alnumus (arg_ident.getLastD ' ') then
        .err "Expected required argument identifier." line col
      else
        let col := col + skip_whitespace s col
        if ¬ in_line col s || ¬ startswith s (chars ">") col then
          .err "Expected closing \x27>\x27 for required argument." line col
        else
          let col := col + 1
          .ok (.mk .REQUIRED_ARG none beg_line beg_col line col
                [.mk .SHELL_IDENT (some (String.mk arg_ident))
                  ident_beg_line ident_beg_col line col []])
            line col

/-! ### `parse_argument` (`helptext_parser.py` 311–418) -/

/-- A fresh `TEXT_LINE` node, `Ast(Tk.TEXT_LINE, text)` (all spans 0). -/
def mkTextLine (text : Line) : Ast :=
  .mk .TEXT_LINE (some (String.mk text)) 0 0 0 0 []

/-- The `while _line_startswith(inp[line],"--",pos)` loop of `parse_argument`:
parse long flags while the cursor keeps matching `--`, skipping whitespace
and one optional comma after each.  State: collected children, `line`,
`pos`, `has_long_flag` (set to `True` at the top of every iteration).
`inl` aborts with a propagated failure — which, per
`ParseResult.is_error()`, happens only for a bare-string result or an
exception: a 4-tuple failure from `parse_long_flag` is treated as a
success, its message string is appended as a child
(`node.append(long_flag_result.get_ast())`) and the loop continues from the
failure position. -/
def long_flags_loop (fuel : Nat) (inp : Input) (line pos : Nat)
    (acc : List Ast) (has_long : Bool) :
    Option (Sum ParseOut (List Ast × Nat × Nat × Bool)) :=
  match inp.get? line with
  | none => some (.inl .crash)
  | some s =>
    if line_startswith s (chars "--") pos then
      match fuel with
      | 0 => none
      | fuel + 1 =>
        let pos := pos + skip_whitespace s pos
        let step : Sum ParseOut (Ast × Nat × Nat) :=
          match parse_long_flag inp line pos with
          | .ok a l c => .inr (a, l, c)
          | .err m l c => .inr (.pystr m, l, c)
          | e => .inl e
        match step with
        | .inl e => some (.inl e)
        | .inr (child, l, c) =>
          let line := l
          match inp.get? line with
          | none => some (.inl .crash)
          | some s2 =>
            let pos := c + skip_whitespace s2 c
            let pos :=
              if in_range line inp && in_line pos s2 && charAtD s2 pos = ','
              then (pos + 1) + skip_whitespace s2 (pos + 1)
              else pos
            long_flags_loop fuel inp line pos (acc ++ [child]) true
    else some (.inr (acc, line, pos, has_long))

/-- The trailing multi-line description loop of `parse_argument`: collect
every following line that starts with eight spaces or two tabs. -/
def desc_lines_loop (fuel : Nat) (inp : Input) (line : Nat) (acc : List Ast) :
    Option (List Ast × Nat) :=
  if in_range line inp
      && (startswith (inp.getD line []) (chars "        ") 0
          || startswith (inp.getD line []) (chars "\t\t") 0) then
    match fuel with
    | 0 => none
    | fuel + 1 =>
      desc_lines_loop fuel inp (line + 1)
        (acc ++ [mkTextLine (strip (inp.getD line []))])
  else some (acc, line)

/-- The description step of `parse_argument` (its final `if/else` block),
given the collected flag/placeholder children `acc`.  In the `:`-description
arm the source returns `(node, line, 0)` **without advancing `line`**. -/
def parse_argument_desc (fuel : Nat) (inp : Input) (line pos : Nat)
    (acc : List Ast) : Option ParseOut :=
  match inp.get? line with
  | none => some .crash
  | some s =>
    if startswith s (chars ":") pos then
      let pos := pos + 1
      let pos := pos + skip_whitespace s pos
      let text := strip (s.drop pos)
      if text.isEmpty then
        some (.err "Expected argument description text after \x27:\x27." line pos)
      else
        some (.ok (.mk .ARGUMENT none 0 0 0 0 (acc ++ [mkTextLine text])) line 0)
    else
      let text := strip (s.drop pos)
      if text.isEmpty then
        let next_line := line + 1
        if next_line < inp.length && is_indented_line (inp.getD next_line []) 2 then
          let line := line + 1
          let text := strip (inp.getD line [])
          let step : List Ast × Nat :=
            if ¬ text.isEmpty then (acc ++ [mkTextLine text], line + 1)
            else (acc, line)
          match desc_lines_loop fuel inp step.2 step.1 with
          | none => none
          | some (acc2, line2) =>
            some (.ok (.mk .ARGUMENT none 0 0 0 0 acc2) line2 pos)
        else
          some (.ok (.mk .ARGUMENT none 0 0 0 0 acc) (line + 1) pos)
      else
        some (.ok (.mk .ARGUMENT none 0 0 0 0 (acc ++ [mkTextLine text])) (line + 1) pos)

/-- The optional positional-placeholder step of `parse_argument`: parse one
`[...]` or `<...>` after the flags, then dispatch to the description step.
The `is_error()` checks at this point never fire for the 4-tuple failures
of `parse_optional_arg`/`parse_required_arg`: such a failure is treated as
a success, its message string is appended as a child and parsing continues
from the failure position. -/
def parse_argument_pos (fuel : Nat) (inp : Input) (line pos : Nat)
    (acc : List Ast) : Option ParseOut :=
  match inp.get? line with
  | none => some .crash
  | some s =>
    if startswith s (chars "[") pos then
      let step : Sum ParseOut (Ast × Nat × Nat) :=
        match parse_optional_arg inp line pos with
        | .ok a l c => .inr (a, l, c)
        | .err m l c => .inr (.pystr m, l, c)
        | e => .inl e
      match step with
      | .inl e => some e
      | .inr (child, l, c) =>
        let line := l
        if line ≥ inp.length then
          some (.err "Expected argument description but reached end of input." line c)
        else
          let pos := c + skip_whitespace (inp.getD line []) c
          parse_argument_desc fuel inp line pos (acc ++ [child])
    else if startswith s (chars "<") pos then
      let step : Sum ParseOut (Ast × Nat × Nat) :=
        match parse_required_arg inp line pos with
        | .ok a l c => .inr (a, l, c)
        | .err m l c => .inr (.pystr m, l, c)
        | e => .inl e
      match step with
      | .inl e => some e
      | .inr (child, l, c) =>
        let line := l
        if line ≥ inp.length then
          some (.err "Expected argument description but reached end of input." line c)
        else
          let pos := c + skip_whitespace (inp.getD line []) c
          parse_argument_desc fuel inp line pos (acc ++ [child])
    else
      parse_argument_desc fuel inp line pos acc

/-- `parse_argument`: an optional short flag, then zero or more long flags
(at least one flag in total), an optional placeholder, and a description.
The `is_error()` check after `parse_short_flag` never fires for its 4-tuple
failures: such a failure is treated as a success, its message string is
appended as a child and parsing continues from the failure position. -/
def parse_argument (fuel : Nat) (inp : Input) (line pos : Nat) : Option ParseOut :=
  if ¬ in_range line inp then
    some (.err "Expected argument but reached end of input." line pos)
  else
    let s := inp.getD line []
    if line_startswith s (chars "-") 0 && ¬ line_startswith s (chars "--") 0 then
      -- optional short flag
      let pos := pos + skip_whitespace s pos
      let step : Sum ParseOut (Ast × Nat × Nat) :=
        match parse_short_flag inp line pos with
        | .ok a l c => .inr (a, l, c)
        | .err m l c => .inr (.pystr m, l, c)
        | e => .inl e
      match step with
      | .inl e => some e
      | .inr (child, l, c) =>
        let line := l
        match inp.get? line with
        | none => some .crash
        | some s2 =>
          let pos := c + skip_whitespace s2 c
          let pos :=
            if in_range line inp && in_line pos s2 && charAtD s2 pos = ','
            then pos + 1 else pos
          let pos := pos + skip_whitespace s2 pos
          match long_flags_loop fuel inp line pos [child] false with
          | none => none
          | some (.inl e) => some e
          | some (.inr (acc, line, pos, _)) =>
            -- has_short_flag is true, so the at-least-one-flag check passes
            parse_argument_pos fuel inp line pos acc
    else
      match long_flags_loop fuel inp line pos [] false with
      | none => none
      | some (.inl e) => some e
      | some (.inr (acc, line2, pos2, has_long)) =>
        if ¬ has_long then
          -- `ParseResult(f"Expected at least one long flag at line {line}")`
          some (.bare ("Expected at least one long flag at line " ++ toString line))
        else
          parse_argument_pos fuel inp line2 pos2 acc

/-! ### `parse_argument_list` (`helptext_parser.py` 420–440) -/

/-- The blank-line skipping loops (`while line < len(inp) and
inp[line].strip() == "": line += 1`): first non-blank index at or after
`line`. -/
def skip_blank_lines (inp : Input) (line : Nat) : Nat :=
  line + ((inp.drop line).takeWhile (fun s => (strip s).isEmpty)).length

/-- The main loop of `parse_argument_list`: parse arguments while the current
line starts (after leading whitespace) with `-`, resetting the column to 0 and
skipping blank separator lines after each.  Per `ParseResult.is_error()`,
only a bare-string result (or an exception) aborts the loop; a 4-tuple
failure from `parse_argument` is treated as a success and its message
string is appended as a list entry.  The source passes the argument's end
line straight back into the loop, so an argument parse that does not
advance `line` makes this loop run forever (fuel exhaustion at every
fuel). -/
def argument_list_loop (fuel : Nat) (inp : Input) (line pos : Nat)
    (acc : List Ast) : Option (Sum ParseOut (List Ast × Nat × Nat)) :=
  if in_range line inp && line_startswith (inp.getD line []) (chars "-") 0 then
    match fuel with
    | 0 => none
    | fuel + 1 =>
      match parse_argument fuel inp line pos with
      | none => none
      | some (.ok a l _) =>
        let line := skip_blank_lines inp l
        argument_list_loop fuel inp line 0 (acc ++ [a])
      | some (.err m l _) =>
        let line := skip_blank_lines inp l
        argument_list_loop fuel inp line 0 (acc ++ [.pystr m])
      | some e => some (.inl e)
  else some (.inr (acc, line, pos))

/-- `parse_argument_list`: one or more arguments. -/
def parse_argument_list (fuel : Nat) (inp : Input) (line pos : Nat) :
    Option ParseOut :=
  match argument_list_loop fuel inp line pos [] with
  | none => none
  | some (.inl e) => some e
  | some (.inr (branches, line, pos)) =>
    if branches.length = 0 then
      some (.err "Attempting to parse non-existing argument list." line pos)
    else
      some (.ok (.mk .ARGUMENT_LIST none 0 0 0 0 branches) line pos)

/-! ### `parse_paragraph` (`helptext_parser.py` 473–498) -/

/-- The collection loop of `parse_paragraph`: take lines that are indented at
`indent_level` or blank; at level 0 a non-indented, non-blank line whose
successor is indented ends the paragraph (it is a section title). -/
def paragraph_loop (fuel : Nat) (inp : Input) (indent_level line : Nat)
    (acc : List Ast) : Option (List Ast × Nat) :=
  if in_range line inp
      && (is_indented_line (inp.getD line []) indent_level
          || (strip (inp.getD line [])).isEmpty) then
    if indent_level = 0 && ¬ is_indented_line (inp.getD line []) 1
        && ¬ (strip (inp.getD line [])).isEmpty
        && line + 1 < inp.length && is_indented_line (inp.getD (line + 1) []) 1 then
      some (acc, line)
    else
      match fuel with
      | 0 => none
      | fuel + 1 =>
        paragraph_loop fuel inp indent_level (line + 1)
          (acc ++ [mkTextLine (strip (inp.getD line []))])
  else some (acc, line)

/-- The trailing `while ... branches[-1].value == "": pop` loop of
`parse_paragraph`: drop trailing children whose payload is the empty
string.  (`parse_paragraph` only ever appends `TEXT_LINE` nodes, so the
non-node fallthrough is unreachable here; a `None` payload compares
unequal to `""` in Python.) -/
def trim_trailing_blank (brs : List Ast) : List Ast :=
  (brs.reverse.dropWhile (fun a =>
    match a with
    | .mk _ (some v) _ _ _ _ _ => decide (v = "")
    | _ => false)).reverse

/-- `parse_paragraph`: one or more indented text lines.  The entry blank-line
skip indexes `inp[line]` without a bound check, hence the `crash` arm. -/
def parse_paragraph (fuel : Nat) (inp : Input) (line pos indent_level : Nat) :
    Option ParseOut :=
  match inp.get? line with
  | none => some .crash
  | some s0 =>
    let line := if (strip s0).isEmpty then line + 1 else line
    if line ≥ inp.length then
      some (.err "Expected paragraph but reached end of input." line pos)
    else if ¬ is_indented_line (inp.getD line []) indent_level then
      some (.err "Expected indented paragraph." line pos)
    else
      match paragraph_loop fuel inp indent_level line [] with
      | none => none
      | some (acc, line) =>
        some (.ok (.mk .PARAGRAPH none 0 0 0 0 (trim_trailing_blank acc)) line 0)

/-! ### `parse_section` (`helptext_parser.py` 442–471) -/

/-- `parse_section`: an unindented title line followed by an indented body
that is an argument list (first body line starts with `-`) or a paragraph.
The guard is `line > len(inp)`, so `line = len(inp)` reaches the
`inp[line]` access and raises, hence the `crash` arm.  Per
`ParseResult.is_error()`, the `"Failed to parse argument list."` /
`"Failed to parse paragraph."` replacements fire only when the body result
is a bare string; a 4-tuple failure from the body parse is treated as a
success, so its message string is appended as the section's child and the
section is returned as a success at the failure position. -/
def parse_section (fuel : Nat) (inp : Input) (line pos : Nat) : Option ParseOut :=
  if line > inp.length then
    some (.err "Expected section but reached end of input." line pos)
  else
    match inp.get? line with
    | none => some .crash
    | some s =>
      if is_indented_line s 1 then
        some (.err "Expected section title." line pos)
      else
        let section_title := strip s
        let line := line + 1
        if ¬ (line < inp.length) || ¬ is_indented_line (inp.getD line []) 1 then
          some (.err "Expected indented text after section title." line pos)
        else
          let section_start := skip_whitespace (inp.getD line []) 0
          if startswith (inp.getD line []) (chars "-") section_start then
            match parse_argument_list fuel inp line section_start with
            | none => none
            | some (.ok a l c) =>
              some (.ok (.mk .SECTION (some (String.mk section_title)) 0 0 0 0 [a]) l c)
            | some (.err m l c) =>
              some (.ok (.mk .SECTION (some (String.mk section_title)) 0 0 0 0 [.pystr m]) l c)
            | some .crash => some .crash
            | some (.bare _) =>
              some (.err "Failed to parse argument list." line pos)
          else
            match parse_paragraph fuel inp line 0 1 with
            | none => none
            | some (.ok a l c) =>
              some (.ok (.mk .SECTION (some (String.mk section_title)) 0 0 0 0 [a]) l c)
            | some (.err m l c) =>
              some (.ok (.mk .SECTION (some (String.mk section_title)) 0 0 0 0 [.pystr m]) l c)
            | some .crash => some .crash
            | some (.bare _) =>
              some (.err "Failed to parse paragraph." line pos)

/-! ### `parse_usage_section` (`helptext_parser.py` 500–535) -/

/-- The continuation loop of `parse_usage_section`: append each further
indented or blank line to the usage text, newline-separated. -/
def usage_cont_loop (fuel : Nat) (inp : Input) (line : Nat) (text : Line) :
    Option (Line × Nat) :=
  if in_range line inp
      && (is_indented_line (inp.getD line []) 1
          || (strip (inp.getD line [])).isEmpty) then
    match fuel with
    | 0 => none
    | fuel + 1 =>
      usage_cont_loop fuel inp (line + 1)
        (text ++ '\n' :: strip (inp.getD line []))
  else some (text, line)

/-- The trailing-trim loop of `parse_usage_section`
(`while usage_text[-1] in " \t\n": chop`): drop trailing spaces, tabs and
newlines.  If the text is all whitespace the loop empties it and then
indexes `usage_text[-1]` on an empty string, an IndexError, modelled by
`none`. -/
def trim_trailing_ws (s : Line) : Option Line :=
  let r := (s.reverse.dropWhile (fun c => c = ' ' || c = '\t' || c = '\n')).reverse
  if r.isEmpty then none else some r

/-- `parse_usage_section`: the `Usage` keyword, an optional colon, then the
rest of the line as usage text; if that is empty, indented continuation
lines.  A `line` past the input yields the degenerate string-built
`ParseResult` (`bare`). -/
def parse_usage_section (fuel : Nat) (inp : Input) (line pos : Nat) :
    Option ParseOut :=
  if line ≥ inp.length then
    some (.bare "Expected usage section but reached end of inp")
  else
    let s := inp.getD line []
    if ¬ is_usage_keyword s then
      some (.err "Expected usage section starting with \x27Usage:\x27." line pos)
    else
      let pos := pos + "Usage".length
      let pos := pos + skip_whitespace s pos
      let pos := pos + skip_chars1 s pos ':'
      let pos := pos + skip_whitespace s pos
      let usage_text := strip (s.drop pos)
      if usage_text.isEmpty then
        let line := line + 1
        if in_range line inp && is_indented_line (inp.getD line []) 1 then
          let usage_text := strip (inp.getD line [])
          match usage_cont_loop fuel inp (line + 1) usage_text with
          | none => none
          | some (text, line) =>
            match trim_trailing_ws text with
            | none => some .crash
            | some text =>
              some (.ok (.mk .USAGE (some (String.mk text)) 0 0 0 0 []) line pos)
        else
          some (.err "Expected indented usage text after usage keyword." line pos)
      else
        let line := line + 1
        match trim_trailing_ws usage_text with
        | none => some .crash
        | some text =>
          some (.ok (.mk .USAGE (some (String.mk text)) 0 0 0 0 []) line 0)

/-! ### `parse_command_section` (`helptext_parser.py` 537–598) -/

/-- `parse_command_section`: after matching a command keyword and checking
for an indented command list, the source executes
`cmd_section = Ast(Tk.COMMAND_SECTION)` — but `Tk` (in `helptext_ast.py`)
has no `COMMAND_SECTION` (nor `COMMAND`) member, so Python raises
`AttributeError` there.  Everything after that statement is dead code and is
therefore not modelled. -/
def parse_command_section (inp : Input) (line pos : Nat) : ParseOut :=
  if line ≥ inp.length then
    .bare "Expected usage section but reached end of inp"
  else
    let s := inp.getD line []
    let is_command_section := is_command_keyword s
    if is_command_section = 0 then
      .err "Expected command section starting with command keyword." line pos
    else
      let pos := pos + is_command_section
      let pos := pos + skip_whitespace s pos
      let pos := pos + skip_chars1 s pos ':'
      let pos := pos + skip_whitespace s pos
      if line + 1 ≥ inp.length || ¬ is_indented_line (inp.getD (line + 1) []) 1 then
        .err "Expected indented command list after command keyword." line pos
      else
        .crash

/-! ### `parse_help_text` and `parse` (`helptext_parser.py` 600–688) -/

/-- The top-level loop of `parse_help_text`: at each non-blank line dispatch
to the usage, command-section, section or paragraph parser (section vs.
paragraph decided by one line of lookahead), skip blank lines after each
construct, and collect the results as children of the root node.  Per
`ParseResult.is_error()`, the driver aborts only on a bare-string result
(or an exception): a 4-tuple failure from a sub-parser is treated as a
success, its message string is appended as a root child and the loop
resumes from the failure position. -/
def help_text_loop (fuel : Nat) (inp : Input) (line pos : Nat)
    (acc : List Ast) : Option ParseOut :=
  if line < inp.length then
    match fuel with
    | 0 => none
    | fuel + 1 =>
      let pos := 0
      let s := inp.getD line []
      if (strip s).isEmpty then
        help_text_loop fuel inp (line + 1) pos acc
      else if is_usage_keyword s then
        match parse_usage_section fuel inp line pos with
        | none => none
        | some (.ok a l c) =>
          help_text_loop fuel inp (skip_blank_lines inp l) c (acc ++ [a])
        | some (.err m l c) =>
          help_text_loop fuel inp (skip_blank_lines inp l) c (acc ++ [.pystr m])
        | some e => some e
      else if is_command_keyword s ≠ 0 then
        match parse_command_section inp line pos with
        | .ok a l c =>
          help_text_loop fuel inp (skip_blank_lines inp l) c (acc ++ [a])
        | .err m l c =>
          help_text_loop fuel inp (skip_blank_lines inp l) c (acc ++ [.pystr m])
        | e => some e
      else
        let section_begin := if line + 1 < inp.length then inp.getD (line + 1) [] else []
        let is_section := is_indented_line section_begin 1
            && ¬ (strip section_begin).isEmpty
        if is_section then
          match parse_section fuel inp line pos with
          | none => none
          | some (.ok a l c) =>
            help_text_loop fuel inp (skip_blank_lines inp l) c (acc ++ [a])
          | some (.err m l c) =>
            help_text_loop fuel inp (skip_blank_lines inp l) c (acc ++ [.pystr m])
          | some e => some e
        else
          match parse_paragraph fuel inp line pos 0 with
          | none => none
          | some (.ok a l c) =>
            help_text_loop fuel inp (skip_blank_lines inp l) c (acc ++ [a])
          | some (.err m l c) =>
            help_text_loop fuel inp (skip_blank_lines inp l) c (acc ++ [.pystr m])
          | some e => some e
  else some (.ok (.mk .SYNTAX_NODE none 0 0 0 0 acc) line pos)

/-- `parse_help_text`: resets the cursor to `(0, 0)`, rejects an empty line
array, and runs the top-level loop. -/
def parse_help_text (fuel : Nat) (inp : Input) (_line _pos : Nat) :
    Option ParseOut :=
  if inp.isEmpty then some (.err "Input is empty" 0 0)
  else help_text_loop fuel inp 0 0 []

/-- `parse`: split the input into logical lines and parse them. -/
def parse (fuel : Nat) (s : String) : Option ParseOut :=
  parse_help_text fuel (splitlines s.toList) 0 0

/-! ### Markdown generation (`helptext_md.py`) -/

/-- Outcome of a generator call (`class GeneratorResult`): the Markdown
string, or an error message with a position; `crash` is a Python exception
escaping the generator (IndexError / AttributeError on `None`). -/
inductive GenOut where
  | ok (md : String)
  | err (msg : String) (line col : Nat)
  | crash

/-- Python `s.strip()` on a `str` payload. -/
def strip_str (s : String) : String := String.mk (strip s.toList)

/-- Python string interpolation of an `Optional[str]`: `None` prints as
`"None"`. -/
def py_str_opt : Option String → String
  | some s => s
  | none => "None"

/-- Python `s.split("\n")` on a `str`. -/
def split_nl (s : String) : List String := (split_on_nl s.toList).map String.mk

/-- Python `c.isspace()` over its ASCII behaviour. -/
def py_isspace (c : Char) : Bool := is_py_space c

/-- The title loop of `generate_md`: copy the first usage line up to the
first `-`, `[` or `<`, mapping whitespace to single spaces. -/
def usage_title : List Char → String
  | [] => ""
  | c :: rest =>
    if py_isspace c then " " ++ usage_title rest
    else if c = '-' || c = '[' || c = '<' then ""
    else String.mk [c] ++ usage_title rest

/-- The positional-placeholder loop of `generate_argument`: consume leading
`OPTIONAL_ARG`/`REQUIRED_ARG` children, emitting each; returns the grown
output, the remaining children and `has_positional`.  A raw string where a
node is expected raises at the `.tk`/`.value` attribute access. -/
def md_pos_args : List Ast → String → Bool →
    Except GenOut (String × List Ast × Bool)
  | [], outp, has_pos => .ok (outp, [], has_pos)
  | .pystr _ :: _, _, _ => .error .crash
  | a@(.mk t _ _ _ _ _ cbs) :: rest, outp, has_pos =>
    if t = .OPTIONAL_ARG || t = .REQUIRED_ARG then
      let outp := if outp.length > 0 then outp ++ " " else outp
      match cbs with
      | [] => .error .crash
      | .pystr _ :: _ => .error .crash
      | .mk _ cv _ _ _ _ _ :: _ =>
        let piece :=
          if t = .OPTIONAL_ARG then " [" ++ py_str_opt cv ++ "]` "
          else " <" ++ py_str_opt cv ++ ">` "
        md_pos_args rest (outp ++ piece) true
    else .ok (outp, a :: rest, has_pos)

/-- The description loop of `generate_argument`: concatenate every
`TEXT_LINE` child's stripped payload after a line-continuation marker.
A `TEXT_LINE` whose payload is `None` raises (`None.strip()`); a raw
string in the list raises at the `.tk` access. -/
def arg_brief_fold : List Ast → Option String
  | [] => some ""
  | .pystr _ :: _ => none
  | .mk t v _ _ _ _ _ :: rest =>
    if t = .TEXT_LINE then
      match v with
      | none => none
      | some s =>
        match arg_brief_fold rest with
        | none => none
        | some tl =>
          some ("\\\n&nbsp;&nbsp;&nbsp;&nbsp;" ++ strip_str s ++ tl)
    else arg_brief_fold rest

/-- `generate_argument`: Markdown for one `ARGUMENT` node — short flag, then
at most one long flag, then positional placeholders, then the description
lines; any other child order is an error.  A raw string handed in as the
node, or sitting where a child node is inspected, raises at the attribute
access and is modelled as a crash. -/
def generate_argument (arg : Ast) : GenOut :=
  match arg with
  | .pystr _ => .crash
  | .mk t _ aline acol _ _ bs =>
    if t ≠ .ARGUMENT then .err "Expected argument node" aline acol
    else if bs.length = 0 then .err "Invalid ARGUMENT node format." aline acol
    else
      -- short flag: must be first if present
      let step1 : Except GenOut (String × List Ast) :=
        match bs with
        | [] => .ok ("", [])
        | .pystr _ :: _ => .error .crash
        | b@(.mk bt _ _ _ _ _ sbs) :: rest =>
          if bt = .SHORT_FLAG then
            match sbs with
            | [] => .error .crash
            | .pystr _ :: _ => .error .crash
            | .mk _ cv _ _ _ _ _ :: _ => .ok ("`-" ++ py_str_opt cv ++ "` ", rest)
          else .ok ("", b :: rest)
      match step1 with
      | .error e => e
      | .ok (outp, rem) =>
        -- at most one long flag (an `if`, not a loop, in the source)
        let step2 : Except GenOut (String × List Ast × Bool) :=
          match rem with
          | [] => .ok (outp, [], false)
          | .pystr _ :: _ => .error .crash
          | b@(.mk bt _ _ _ _ _ lbs) :: rest =>
            if bt = .LONG_FLAG then
              let outp := if outp.length > 0 then outp ++ " " else outp
              match lbs with
              | [] => .error .crash
              | .pystr _ :: _ => .error .crash
              | .mk _ cv _ _ _ _ _ :: _ =>
                .ok (outp ++ "`--" ++ py_str_opt cv, rest, true)
            else .ok (outp, b :: rest, false)
        match step2 with
        | .error e => e
        | .ok (outp, rem, has_long) =>
          match md_pos_args rem outp false with
          | .error e => e
          | .ok (outp, rem, has_pos) =>
            let outp := if ¬ has_pos && has_long then outp ++ "` " else outp
            let check : Except GenOut Unit :=
              match rem with
              | [] => .ok ()
              | .pystr _ :: _ => .error .crash
              | .mk ht _ _ _ _ _ _ :: _ =>
                if ht ≠ .TEXT_LINE then
                  .error (.err ("Unexpected token in argument list:" ++ ht.name)
                    aline acol)
                else .ok ()
            match check with
            | .error e => e
            | .ok _ =>
              match arg_brief_fold bs with
              | none => .crash
              | some brief =>
                .ok (if ¬ (strip_str brief).isEmpty then outp ++ brief else outp)

/-- `ln.strip()` for each child's payload; a `None` payload raises, as does
the `.value` access on a raw string. -/
def emit_values : List Ast → Option (List String)
  | [] => some []
  | .pystr _ :: _ => none
  | .mk _ v _ _ _ _ _ :: rest =>
    match v with
    | none => none
    | some s =>
      match emit_values rest with
      | none => none
      | some tl => some (strip_str s :: tl)

/-- The usage-line emission of `generate_md`: each non-blank usage line,
stripped and fenced in backticks. -/
def usage_lines_emit : List String → List String
  | [] => []
  | ln :: rest =>
    if (strip_str ln).isEmpty then usage_lines_emit rest
    else ("`" ++ strip_str ln ++ "`\n") :: usage_lines_emit rest

/-- First pass of `generate_md`: every `USAGE` child emits an optional
derived title, a `### Usage` heading, and its fenced lines.  A `USAGE` node
with no payload raises at `br.value.split("\n")`; a raw string raises at
the `br.tk` access. -/
def md_usage_pass : List Ast → Except GenOut (List String)
  | [] => .ok []
  | .pystr _ :: _ => .error .crash
  | .mk t v _ _ _ _ _ :: rest =>
    if t = .USAGE then
      match v with
      | none => .error .crash
      | some val =>
        let title_part : List String :=
          if ¬ (strip_str val).isEmpty then
            ["# " ++ usage_title ((split_nl val).headD "").toList ++ "\n"]
          else []
        let lns := usage_lines_emit (split_nl val)
        match md_usage_pass rest with
        | .error e => .error e
        | .ok tl => .ok (title_part ++ ("### Usage" :: lns) ++ tl)
    else md_usage_pass rest

/-- Second pass of `generate_md`: every `BRIEF` child emits the stripped
payloads of its first child's children.  A raw string raises at the
`.tk`/`.branches` access. -/
def md_brief_pass : List Ast → Except GenOut (List String)
  | [] => .ok []
  | .pystr _ :: _ => .error .crash
  | .mk t _ _ _ _ _ bs :: rest =>
    if t = .BRIEF then
      match bs with
      | [] => .error .crash
      | .pystr _ :: _ => .error .crash
      | .mk _ _ _ _ _ _ fbs :: _ =>
        match emit_values fbs with
        | none => .error .crash
        | some xs =>
          match md_brief_pass rest with
          | .error e => .error e
          | .ok tl => .ok (xs ++ tl)
    else md_brief_pass rest

/-- Third pass of `generate_md`: every root-level `PARAGRAPH` seen before the
first `SECTION` is emitted under a `### Brief` heading.  A raw string raises
at the `.tk` access. -/
def md_para_pass : List Ast → Bool → Except GenOut (List String)
  | [], _ => .ok []
  | .pystr _ :: _, _ => .error .crash
  | .mk t _ _ _ _ _ bs :: rest, no_preceding =>
    if t = .PARAGRAPH then
      if no_preceding then
        match emit_values bs with
        | none => .error .crash
        | some xs =>
          match md_para_pass rest no_preceding with
          | .error e => .error e
          | .ok tl => .ok ("### Brief" :: (xs ++ [""] ++ tl))
      else md_para_pass rest no_preceding
    else if t = .SECTION then md_para_pass rest false
    else md_para_pass rest no_preceding

/-- `"    " + ln.value.strip()` for each child; a `None` payload raises, as
does the `.value` access on a raw string. -/
def emit_indented : List Ast → Option (List String)
  | [] => some []
  | .pystr _ :: _ => none
  | .mk _ v _ _ _ _ _ :: rest =>
    match v with
    | none => none
    | some s =>
      match emit_indented rest with
      | none => none
      | some tl => some (("    " ++ strip_str s) :: tl)

/-- Paragraph bodies of one section: every `PARAGRAPH` child's lines,
indented.  A raw string raises at the `.tk` access. -/
def md_section_paras : List Ast → Except GenOut (List String)
  | [] => .ok []
  | .pystr _ :: _ => .error .crash
  | .mk t _ _ _ _ _ cs :: rest =>
    if t = .PARAGRAPH then
      match emit_indented cs with
      | none => .error .crash
      | some xs =>
        match md_section_paras rest with
        | .error e => .error e
        | .ok tl => .ok (xs ++ tl)
    else md_section_paras rest

/-- Argument emission of one section: each argument's Markdown followed by a
blank line; a failing `generate_argument` aborts the render. -/
def md_args_emit : List Ast → Except GenOut (List String)
  | [] => .ok []
  | arg :: rest =>
    match generate_argument arg with
    | .ok md =>
      match md_args_emit rest with
      | .error e => .error e
      | .ok tl => .ok (md :: "" :: tl)
    | e => .error e

/-- Fourth pass of `generate_md`: every `SECTION` child emits its heading and
either its indented paragraph body or its rendered argument list.  A
`SECTION` with no children raises at `section.branches[0]`; a raw string
raises at the `.tk` access, both on the child itself and on the section's
first grandchild. -/
def md_section_pass : List Ast → Except GenOut (List String)
  | [] => .ok []
  | .pystr _ :: _ => .error .crash
  | .mk t v _ _ _ _ bs :: rest =>
    if t = .SECTION then
      let heading : List String :=
        match v with
        | some s => if ¬ (strip_str s).isEmpty then ["### " ++ strip_str s] else []
        | none => []
      match bs with
      | [] => .error .crash
      | .pystr _ :: _ => .error .crash
      | .mk ft fv _ _ _ _ fbs :: _ =>
        if ft = .PARAGRAPH then
          match md_section_paras bs with
          | .error e => .error e
          | .ok xs =>
            match md_section_pass rest with
            | .error e => .error e
            | .ok tl => .ok (heading ++ xs ++ [""] ++ tl)
        else if ft = .ARGUMENT_LIST then
          let al_heading : List String :=
            match fv with
            | some s => if ¬ (strip_str s).isEmpty then ["### " ++ strip_str s] else []
            | none => []
          match md_args_emit fbs with
          | .error e => .error e
          | .ok xs =>
            match md_section_pass rest with
            | .error e => .error e
            | .ok tl => .ok (heading ++ al_heading ++ xs ++ tl)
        else
          match md_section_pass rest with
          | .error e => .error e
          | .ok tl => .ok (heading ++ tl)
    else md_section_pass rest

/-- `generate_md`: Markdown for a whole document tree; the root must be the
`SYNTAX` kind, otherwise the call is a usage error.  A raw string handed in
as the tree raises at the `ast.tk` access. -/
def generate_md (ast : Ast) : GenOut :=
  match ast with
  | .pystr _ => .crash
  | .mk t _ _ _ _ _ bs =>
    if t ≠ .SYNTAX_NODE then .err "Expected root syntax node" 0 0
    else
      match md_usage_pass bs with
      | .error e => e
      | .ok p1 =>
        match md_brief_pass bs with
        | .error e => e
        | .ok p2 =>
          match md_para_pass bs true with
          | .error e => e
          | .ok p3 =>
            match md_section_pass bs with
            | .error e => e
            | .ok p4 =>
              .ok (String.intercalate "\n" (p1 ++ p2 ++ p3 ++ p4))

/-! ### Claims -/

/-- Fetching the current line when the index is in bounds. -/
theorem get?_eq_getD {inp : Input} {line : Nat} (h : line < inp.length) :
    inp.get? line = some (inp.getD line []) := by
  cases hg : inp.get? line with
  | none =>
    have := List.get?_eq_none.mp hg
    omega
  | some s =>
    rw [List.getD_eq_getElem?_getD, ← List.get?_eq_getElem?, hg]
    rfl

/-- C1: the claim says `parse` always returns a structured result and never
raises, in particular for inputs whose first non-blank line is a
command/sub-command keyword followed by an indented command list.  On exactly
that input class the code raises: once `parse_command_section` has matched
the keyword and confirmed the indented list, it executes
`Ast(Tk.COMMAND_SECTION)`, and `Tk` has no such member, so Python raises
`AttributeError`; the call escapes the `ParseResult` contract. -/
theorem claim_c1_command_section_raises :
    parse 10 "Commands\n    ls List files.\n" = some ParseOut.crash := by rfl

/-- C7: parsing `"Usage: prog [opt]\n\nDoes a thing.\n\n"` succeeds with a
root whose two children are, in order, a `USAGE` node with text
`"prog [opt]"` and a `PARAGRAPH` node with exactly one `TEXT_LINE` child with
text `"Does a thing."`. -/
theorem claim_c7_example1 :
    parse 32 "Usage: prog [opt]\n\nDoes a thing.\n\n" =
      some (.ok (.mk .SYNTAX_NODE none 0 0 0 0
        [.mk .USAGE (some "prog [opt]") 0 0 0 0 [],
         .mk .PARAGRAPH none 0 0 0 0
           [.mk .TEXT_LINE (some "Does a thing.") 0 0 0 0 []]]) 4 0) := by rfl

/-- C8: parsing the single argument line `"--name <id>"` with
`parse_argument` succeeds, producing an `ARGUMENT` node whose children are a
`LONG_FLAG` wrapping identifier `"name"` and a `REQUIRED_ARG` wrapping
`SHELL_IDENT` `"id"`, with zero `TEXT_LINE` description children. -/
theorem claim_c8_example3 :
    parse_argument 10 [chars "--name <id>"] 0 0 =
      some (.ok (.mk .ARGUMENT none 0 0 0 0
        [.mk .LONG_FLAG none 0 0 0 6
           [.mk .LONG_FLAG_IDENT (some "name") 0 2 0 6 []],
         .mk .REQUIRED_ARG none 0 7 0 11
           [.mk .SHELL_IDENT (some "id") 0 8 0 11 []]]) 1 11) := by rfl

/-- C5, counterexample: the claim says a line starting with `"Commands"`
gives keyword length 8; the code returns 7, because the `"Command"` variant
is checked first and is a content prefix of `"Commands"`. -/
theorem claim_c5_counterexample :
    is_command_keyword (chars "Commands") = 7 ∧ "Commands".length = 8 :=
  ⟨rfl, rfl⟩

/-- C5, amended: `command_keyword_length` returns the length of the first
variant that matches in check order; `"Command"` is checked before
`"Commands"`, and the variants are not mutually exclusive by content, so for
every line starting with `"Commands"` the result is 7, the length of
`"Command"`. -/
theorem claim_c5_commands_prefix (rest : Line) :
    is_command_keyword (chars "Commands" ++ rest) = "Command".length := by rfl

/-- A root-kinded tree on which rendering nevertheless fails: a section
whose argument list holds an `ARGUMENT` node with no children. -/
def c2_bad_tree : Ast :=
  .mk .SYNTAX_NODE none 0 0 0 0
    [.mk .SECTION (some "Options") 0 0 0 0
      [.mk .ARGUMENT_LIST none 0 0 0 0
        [.mk .ARGUMENT none 0 0 0 0 []]]]

/-- C2, counterexample: the claim says rendering fails **only** when the
root is not the expected root kind; `c2_bad_tree` has the expected root kind
and `generate_md` still fails on it. -/
theorem claim_c2_counterexample :
    c2_bad_tree.tk = Tk.SYNTAX_NODE ∧
      generate_md c2_bad_tree = .err "Invalid ARGUMENT node format." 0 0 :=
  ⟨rfl, rfl⟩

/-- C2, amended: `generate_md` fails on every tree node whose root kind is
not the expected root kind, but it is not total on the remaining trees: it
also fails on a root-kinded tree whose argument list contains a malformed
`ARGUMENT` node (for example one with no children). -/
theorem claim_c2_render_domain :
    (∀ (t : Tk) (v : Option String) (l c el ec : Nat) (bs : List Ast),
        t ≠ Tk.SYNTAX_NODE →
        generate_md (.mk t v l c el ec bs) = .err "Expected root syntax node" 0 0)
    ∧ generate_md c2_bad_tree = .err "Invalid ARGUMENT node format." 0 0 := by
  refine ⟨fun t v l c el ec bs h => ?_, rfl⟩
  unfold generate_md
  dsimp only
  rw [if_pos h]

/-- C2, witness: the amended theorem applied to a concrete non-root tree. -/
theorem claim_c2_witness :
    generate_md (.mk .USAGE none 0 0 0 0 []) =
      .err "Expected root syntax node" 0 0 :=
  claim_c2_render_domain.1 .USAGE none 0 0 0 0 [] (by decide)

/-- C3, counterexample: the claim says an input whose unindented
(non-keyword) title line is immediately followed by an unindented line fails
to parse; in fact the driver never routes such input to `parse_section` — it
parses both lines as one `PARAGRAPH` and succeeds. -/
theorem claim_c3_counterexample :
    parse 10 "Ttl\nnext" =
      some (.ok (.mk .SYNTAX_NODE none 0 0 0 0
        [.mk .PARAGRAPH none 0 0 0 0
          [.mk .TEXT_LINE (some "Ttl") 0 0 0 0 [],
           .mk .TEXT_LINE (some "next") 0 0 0 0 []]]) 2 0) := by rfl

/-- C6, counterexample: the claim says a malformed long flag `"--a"` in an
argument line makes the parse fail with a malformed-flag error at the
column of `a`; in fact the parse does not fail at all.
`ParseResult.__init__` treats `parse_long_flag`'s 4-tuple failure as a
success with `error = None`, so `parse_argument` appends the failure
message *string* into the `ARGUMENT` node as a child and the whole parse
succeeds. -/
theorem claim_c6_counterexample :
    parse 10 "Options\n    --a" =
      some (.ok (.mk .SYNTAX_NODE none 0 0 0 0
        [.mk .SECTION (some "Options") 0 0 0 0
          [.mk .ARGUMENT_LIST none 0 0 0 0
            [.mk .ARGUMENT none 0 0 0 0
              [.pystr "Invalid long flag identifier."]]]]) 2 0) := by rfl

/-- C9: parse and render are deterministic: for one input text (and fuel),
two parses that succeed yield trees equal under the span-ignoring structural
equality, and two renders of one tree that succeed yield identical
strings. -/
theorem claim_c9_determinism :
    (∀ (fuel : Nat) (text : String) (a b : Ast) (la ca lb cb : Nat),
        parse fuel text = some (.ok a la ca) →
        parse fuel text = some (.ok b lb cb) → astEq a b = true)
    ∧ (∀ (ast : Ast) (m1 m2 : String),
        generate_md ast = .ok m1 → generate_md ast = .ok m2 → m1 = m2) := by
  constructor
  · intro fuel text a b la ca lb cb h1 h2
    have h := h1.symm.trans h2
    injection h with h
    injection h with hab hl hc
    subst hab
    exact astEq_refl a
  · intro ast m1 m2 h1 h2
    have h := h1.symm.trans h2
    injection h with h

/-- The tree produced by `parse 5 "Hi"`, used to witness C9. -/
def c9_root : Ast :=
  .mk .SYNTAX_NODE none 0 0 0 0
    [.mk .PARAGRAPH none 0 0 0 0 [.mk .TEXT_LINE (some "Hi") 0 0 0 0 []]]

/-- C9, witness: the determinism theorem applied to the concrete parse of
`"Hi"` and to the concrete render of an empty root. -/
theorem claim_c9_witness :
    astEq c9_root c9_root = true ∧ "" = "" :=
  ⟨claim_c9_determinism.1 5 "Hi" c9_root c9_root 1 0 1 0 (by rfl) (by rfl),
   claim_c9_determinism.2 (.mk .SYNTAX_NODE none 0 0 0 0 []) "" "" (by rfl) (by rfl)⟩

/-- C3, amended: the missing-section-body error exists, but only inside
`parse_section` itself: called at an unindented title line whose following
line is missing or unindented, it fails with
`"Expected indented text after section title."`; the top-level parse never
routes such input to `parse_section` (the driver's one-line lookahead sends
it to `parse_paragraph` instead, which succeeds — see the counterexample). -/
theorem claim_c3_section_requires_indented_body (fuel : Nat) (inp : Input)
    (line pos : Nat) (hline : line < inp.length)
    (htitle : is_indented_line (inp.getD line []) 1 = false)
    (hnext : line + 1 < inp.length →
      is_indented_line (inp.getD (line + 1) []) 1 = false) :
    parse_section fuel inp line pos =
      some (.err "Expected indented text after section title." (line + 1) pos) := by
  unfold parse_section
  rw [if_neg (by omega)]
  rw [get?_eq_getD hline]
  simp only [htitle, Bool.false_eq_true, if_false]
  by_cases h2 : line + 1 < inp.length
  · have h3 := hnext h2
    rw [if_pos (by
      simp only [Bool.or_eq_true, decide_eq_true_eq]
      right
      simp only [List.getD_eq_getElem?_getD] at h3
      simp [h3])]
  · simp [h2]

/-- C3, witness: the amended theorem applied to the two-line input
`["Ttl", "next"]`. -/
theorem claim_c3_witness :
    parse_section 5 [chars "Ttl", chars "next"] 0 0 =
      some (.err "Expected indented text after section title." 1 0) :=
  claim_c3_section_requires_indented_body 5 [chars "Ttl", chars "next"] 0 0
    (by decide) (by decide) (by decide)

/-- C4, counterexample: the claim says the short-flag parser skips leading
horizontal whitespace before matching; on `" -f"` at column 0 it would then
succeed, but the code checks for `-` at the cursor itself and fails. -/
theorem claim_c4_counterexample :
    parse_short_flag [chars " -f"] 0 0 =
      .err "Expected short flag starting with a \x27-\x27." 0 0 := by rfl

/-- C4, amended: the short-flag parser does **not** skip leading whitespace
(its caller `parse_argument` does that before invoking it); with the cursor
directly at the flag it succeeds exactly when the line has `-` followed by
one alphabetic/underscore character that is itself followed by whitespace, a
comma, or the end of the line; every rejection — including `--` and
multi-character short names — is a structured failure (never the degenerate
string-built result, never an exception). -/
theorem claim_c4_short_flag_characterization (inp : Input) (line col : Nat)
    (hline : line < inp.length) :
    ((∃ a l c, parse_short_flag inp line col = .ok a l c) ↔
      (in_line col (inp.getD line []) = true
        ∧ startswith (inp.getD line []) (chars "-") col = true
        ∧ startswith (inp.getD line []) (chars "--") col = false
        ∧ in_line (col + 1) (inp.getD line []) = true
        ∧ is_alpha (charAtD (inp.getD line []) (col + 1)) = true
        ∧ (in_line (col + 2) (inp.getD line []) = false
            ∨ is_whitespace (charAtD (inp.getD line []) (col + 2)) = true
            ∨ charAtD (inp.getD line []) (col + 2) = ',')))
    ∧ (∀ m, parse_short_flag inp line col ≠ .bare m)
    ∧ parse_short_flag inp line col ≠ .crash := by
  have hget := get?_eq_getD hline
  unfold parse_short_flag
  rw [hget]
  dsimp only
  split_ifs with h1 h2 h3 h4 <;> simp_all
  · intro ha hb _hc _hd
    rcases h2 with h | h
    · rw [h] at ha; exact Bool.noConfusion ha
    · rw [h] at hb; exact Bool.noConfusion hb
  · intro hc hd
    rcases h3 with h | h
    · rw [h] at hc; exact Bool.noConfusion hc
    · rw [h] at hd; exact Bool.noConfusion hd
  · rw [show col + 1 + 1 = col + 2 from rfl] at h4
    by_cases hi : in_line (col + 2) (inp[line]) = true
    · by_cases hw : is_whitespace (charAtD (inp[line]) (col + 2)) = true
      · exact Or.inr (Or.inl hw)
      · exact Or.inr (Or.inr (h4 hi (by simpa using hw)))
    · exact Or.inl (by simpa using hi)

/-- C4, witness: the characterization applied to `"-f"` at the cursor. -/
theorem claim_c4_witness :
    ∃ a l c, parse_short_flag [chars "-f"] 0 0 = ParseOut.ok a l c :=
  ((claim_c4_short_flag_characterization [chars "-f"] 0 0 (by decide)).1).mpr
    (by decide)

/-- C6, amended: the malformed-flag diagnostic exists inside
`parse_long_flag`: when the identifier after `--` is shorter than two
characters it builds the 4-tuple failure `"Invalid long flag identifier."`
at the 0-based line and at the column one past the identifier (for `"--a"`
that number equals the 1-based column of `a`).  The full parse, however,
surfaces no error at all for such a line: `ParseResult.__init__` classifies
the 4-tuple as a success, so `parse_argument`'s `is_error()` check never
fires, the message string is appended into the tree as a child, and the
parse succeeds — see the counterexample. -/
theorem claim_c6_long_flag_short_identifier (inp : Input) (line col : Nat)
    (hline : line < inp.length)
    (hcol : in_line col (inp.getD line []) = true)
    (hdash : startswith (inp.getD line []) (chars "--")
        (col + skip_whitespace (inp.getD line []) col) = true)
    (hshort : (((inp.getD line []).drop
        (col + skip_whitespace (inp.getD line []) col + 2)).takeWhile
          is_alnumdash).length < 2) :
    parse_long_flag inp line col =
      .err "Invalid long flag identifier." line
        (col + skip_whitespace (inp.getD line []) col + 2 +
          (((inp.getD line []).drop
            (col + skip_whitespace (inp.getD line []) col + 2)).takeWhile
              is_alnumdash).length) := by
  have hget := get?_eq_getD hline
  simp only [List.getD_eq_getElem?_getD] at hcol hdash hshort ⊢
  unfold parse_long_flag
  rw [hget]
  dsimp only
  rw [if_neg (by simp [hcol])]
  rw [if_neg (by simp [hdash])]
  rw [if_pos (by simp [hshort])]
  simp only [List.getD_eq_getElem?_getD]

/-- C6, witness: the amended theorem applied to the single line `"--a"`;
the error column 3 is one past the identifier `a` (0-based), numerically
the 1-based column of `a`. -/
theorem claim_c6_witness :
    parse_long_flag [chars "--a"] 0 0 =
      .err "Invalid long flag identifier." 0 3 :=
  claim_c6_long_flag_short_identifier [chars "--a"] 0 0
    (by decide) (by decide) (by decide) (by decide)

/-- The blank-line behaviour of the driver loop: on an input whose every
line is blank, the loop just skips lines and returns the root with the
children accumulated so far. -/
theorem help_text_loop_blank (inp : Input)
    (hblank : ∀ l ∈ inp, (strip l).isEmpty = true) :
    ∀ (fuel line : Nat) (acc : List Ast), line ≤ inp.length →
      inp.length - line < fuel →
      help_text_loop fuel inp line 0 acc =
        some (.ok (.mk .SYNTAX_NODE none 0 0 0 0 acc) inp.length 0) := by
  intro fuel
  induction fuel with
  | zero => intro line acc _ h; omega
  | succ f ih =>
    intro line acc hle hlt
    by_cases hl : line < inp.length
    · have hmem : inp.getD line [] ∈ inp := by
        rw [List.getD_eq_getElem?_getD, List.getElem?_eq_getElem hl]
        simp [List.getElem_mem]
      have hb := hblank _ hmem
      unfold help_text_loop
      rw [if_pos hl]
      dsimp only
      rw [if_pos (by simpa using hb)]
      exact ih (line + 1) acc (by omega) (by omega)
    · unfold help_text_loop
      rw [if_neg hl]
      have heq : line = inp.length := by omega
      rw [heq]

/-- C10: parsing the empty string (whose `splitlines` is the empty line
list) returns the structured `"Input is empty"` error at any fuel, while a
non-empty all-blank line array parses to a root with zero children (with
enough fuel for one loop step per line); concretely, `parse` of `"\n\n"`
succeeds with an empty root. -/
theorem claim_c10_empty_vs_blank :
    (∀ fuel : Nat, parse fuel "" = some (.err "Input is empty" 0 0))
    ∧ (∀ (fuel : Nat) (inp : Input), inp ≠ [] →
        (∀ l ∈ inp, (strip l).isEmpty = true) → inp.length < fuel →
        parse_help_text fuel inp 0 0 =
          some (.ok (.mk .SYNTAX_NODE none 0 0 0 0 []) inp.length 0))
    ∧ parse 5 "\n\n" = some (.ok (.mk .SYNTAX_NODE none 0 0 0 0 []) 2 0) := by
  refine ⟨fun fuel => rfl, fun fuel inp hne hblank hfuel => ?_, by rfl⟩
  unfold parse_help_text
  rw [if_neg (by simp [List.isEmpty_iff, hne])]
  exact help_text_loop_blank inp hblank fuel 0 [] (by omega) (by omega)

/-- C10, witness: the all-blank conjunct applied to the one-line input
consisting of a single space. -/
theorem claim_c10_witness :
    parse_help_text 3 [chars " "] 0 0 =
      some (.ok (.mk .SYNTAX_NODE none 0 0 0 0 []) 1 0) :=
  claim_c10_empty_vs_blank.2.1 3 [chars " "] (by decide) (by decide) (by decide)

end Gmash
